import Mathlib

/-!
Verification of the answer-scoring pipeline of the Evaluator repository.

The development shallowly embeds the scoring core of `answer_evaluator.py`
and the cognitive-level classifier of `bloom_utils.py`:

* `classify_bloom` mirrors `bloom_utils.classify_bloom`: both input strings
  are lowercased, the question and the answer are scanned against fixed
  cue-phrase ladders with Python's `re.search(r'\b(...)\b', s)` word-boundary
  semantics (embedded as `reSearch`), and the two levels are resolved over
  the six-level hierarchy.
* `keyword_coverage_score` mirrors `answer_evaluator.keyword_coverage_score`:
  the fraction of keywords whose lowercased text occurs as a substring of the
  lowercased student text (Python's `in`), with the `1.0` early return on an
  empty keyword list.
* `evaluate_answer` mirrors `answer_evaluator.evaluate_answer`.  The external
  similarity providers (sentence-embedding cosine, BLEU, ROUGE-L) are library
  calls in the source, so they enter the embedding as `Except Unit ℚ`
  oracle results: `.ok v` is a returned value, `.error ()` is a raised
  exception at that call site.  The source guards only the ROUGE call with
  `try/except`; the embedding reproduces exactly that.  `bloom_hierarchy.index`
  raising `ValueError` on an unknown level is embedded as
  `Except.error PyError.valueError`.  Scores are modelled over `ℚ` (the source
  uses IEEE floats; all claims are about the real-valued formulas), and the
  final presentational `round(x, 4)` of the returned dictionary is omitted:
  every claim is about the computed values, not their 4-decimal rendering.
* The source computes `curved_score = pow(final_score, 0.8)` from the stored
  raw score in both branches of `evaluate_answer`; the embedding exposes this
  as the derived function `finalScoreOf` over the real-valued power `curve`.
-/

namespace Evaluator

/-- Python's `\w` character class over the (lowercased) texts at hand:
alphanumeric or underscore. -/
def isWordChar (c : Char) : Bool := c.isAlphanum || c == '_'

/-- Whether `pat` occurs at the current position of `text` with a word
boundary at its right end (the left boundary is checked by the caller). -/
def matchHere (pat text : List Char) : Bool :=
  pat.isPrefixOf text &&
    (match text.drop pat.length with
     | [] => true
     | c :: _ => !isWordChar c)

/-- A word boundary to the left of the current position: start of text, or a
non-word character just before it. -/
def boundaryOk : Option Char → Bool
  | none => true
  | some c => !isWordChar c

/-- Scan `text` left to right for an occurrence of `pat` flanked by word
boundaries; `pre` is the character preceding the current position. -/
def searchFrom (pat : List Char) : Option Char → List Char → Bool
  | pre, [] => boundaryOk pre && matchHere pat []
  | pre, c :: t => (boundaryOk pre && matchHere pat (c :: t)) || searchFrom pat (some c) t

/-- Python's `s.lower()`, as a character list. -/
def lowerChars (s : String) : List Char := s.toList.map Char.toLower

/-- Python's `re.search(r'\b(p1|p2|...)\b', text)`: some alternative occurs in
`text` flanked by word boundaries (every cue alternative in the source starts
and ends with a word character, so `\b` constrains both edges). -/
def reSearch (text : List Char) (pats : List String) : Bool :=
  pats.any (fun p => searchFrom p.toList none text)

/-- Python's substring test `needle in hay`. -/
def hasSubstr (needle : List Char) : List Char → Bool
  | [] => needle.isEmpty
  | c :: t => needle.isPrefixOf (c :: t) || hasSubstr needle t

/-- Python's `len(s.split())`: the number of maximal whitespace-free runs.
The flag records whether the previous character was inside a word. -/
def countWordsAux : Bool → List Char → Nat
  | _, [] => 0
  | inWord, c :: t =>
    if c.isWhitespace then countWordsAux false t
    else (if inWord then 0 else 1) + countWordsAux true t

/-- Python's `len(s.split())` over a character list. -/
def countWords (l : List Char) : Nat := countWordsAux false l

/-- The `bloom_hierarchy` list of `bloom_utils.py` and `answer_evaluator.py`. -/
def bloom_hierarchy : List String :=
  ["Remember", "Understand", "Apply", "Analyze", "Evaluate", "Create"]

/-- Python's `list.index` for elements known to be present (`classified` is
always produced from the list itself). -/
def listIndex (l : List String) (s : String) : Nat := l.findIdx (fun x => x == s)

/-- The question-side cue ladder of `classify_bloom` (`bloom_utils.py`,
lines 9-22): first matching cue set wins, `none` when no cue matches.
`q` is the lowercased question. -/
def question_level (q : List Char) : Option String :=
  if reSearch q ["define", "list", "name", "identify", "recall", "state", "who", "what", "when", "where"] then
    some "Remember"
  else if reSearch q ["explain", "describe", "compare", "contrast", "summarize", "interpret", "paraphrase"] then
    some "Understand"
  else if reSearch q ["apply", "use", "demonstrate", "illustrate", "solve", "implement", "design"] then
    some "Apply"
  else if reSearch q ["analyze", "differentiate", "organize", "attribute", "distinguish", "examine"] then
    some "Analyze"
  else if reSearch q ["evaluate", "assess", "critique", "judge", "justify", "recommend"] then
    some "Evaluate"
  else if reSearch q ["create", "design", "construct", "plan", "produce", "develop", "formulate"] then
    some "Create"
  else
    none

/-- The answer-side cue ladder of `classify_bloom` (`bloom_utils.py`,
lines 25-38): the Remember tier additionally requires fewer than 20 words,
and the fall-through default is `"Understand"` (never undefined).
`a` is the lowercased answer. -/
def answer_level (a : List Char) : String :=
  if reSearch a ["is", "are", "was", "were", "means"] && decide (countWords a < 20) then
    "Remember"
  else if reSearch a ["because", "since", "as", "consists of", "includes"] then
    "Understand"
  else if reSearch a ["can be used to", "applied", "implemented", "designed", "built"] then
    "Apply"
  else if reSearch a ["compared to", "differs from", "analysis", "relationship", "impact of", "effect of"] then
    "Analyze"
  else if reSearch a ["better", "worse", "more effective", "less efficient", "advantages", "disadvantages", "pros", "cons"] then
    "Evaluate"
  else if reSearch a ["new", "novel", "innovative", "created", "designed", "developed", "proposed"] then
    "Create"
  else
    "Understand"

/-- `bloom_utils.classify_bloom`.  The source's resolution reads
`if question_level and answer_level: hierarchy[max(q_idx, a_idx)]
elif answer_level: answer_level; elif question_level: ...; else "Understand"`;
since `answer_level` is always a non-empty string, the two trailing branches
are dead code and the resolution is the match below. -/
def classify_bloom (question answer : String) : String :=
  let q := lowerChars question
  let a := lowerChars answer
  let question_l := question_level q
  let answer_l := answer_level a
  match question_l with
  | some ql =>
    let q_idx := listIndex bloom_hierarchy ql
    let a_idx := listIndex bloom_hierarchy answer_l
    bloom_hierarchy.getD (max q_idx a_idx) "Understand"
  | none => answer_l

/-- `answer_evaluator.keyword_coverage_score`: `1.0` on an empty (or absent)
keyword list, else the fraction of keywords occurring case-insensitively as
substrings of the student text. -/
def keyword_coverage_score (student_text : String) (reference_keywords : List String) : ℚ :=
  if reference_keywords.isEmpty then 1
  else
    (reference_keywords.countP
      (fun keyword => hasSubstr (lowerChars keyword) (lowerChars student_text)) : ℚ) /
      (reference_keywords.length : ℚ)

/-- Python's `not stu_answer or not stu_answer.strip()`: the string is empty
or consists of whitespace only. -/
def isBlank (s : String) : Bool := s.toList.all Char.isWhitespace

/-- Python's `bloom_gt or "Understand"`: `None` and the empty string are
falsy. -/
def orUnderstand : Option String → String
  | none => "Understand"
  | some b => if b.isEmpty then "Understand" else b

/-- The Python exceptions observable from `evaluate_answer`: `ValueError`
from `bloom_hierarchy.index` on an unknown expected level, and an exception
propagated from an unguarded provider call. -/
inductive PyError
  | valueError
  | providerError
deriving DecidableEq

/-- The evaluation record returned by `evaluate_answer` (the source rounds
each numeric field to 4 decimals for presentation and also stores
`final_score = pow(raw_score, 0.8)`; the curved score is exposed as the
derived `finalScoreOf` below). -/
structure EvalResult where
  semantic_score : ℚ
  bleu : ℚ
  rouge_l : ℚ
  keyword_coverage : ℚ
  bloom_classified : String
  bloom_expected : String
  bloom_penalty : ℚ
  image_similarity : Option ℚ
  raw_score : ℚ
deriving DecidableEq

/-- The signed-difference penalty of `evaluate_answer` (lines 99-106), as a
function of the two hierarchy indices: `bloom_diff = expected_idx -
actual_idx`; zero penalty at equality, `min(0.05 * diff, 0.15)` when the
classification falls short, the flat constant `-0.02` when it exceeds. -/
def penalty_formula (expected_idx actual_idx : Nat) : ℚ :=
  let bloom_diff : ℤ := (expected_idx : ℤ) - (actual_idx : ℤ)
  if bloom_diff = 0 then 0
  else if 0 < bloom_diff then min (0.05 * (bloom_diff : ℚ)) 0.15
  else -0.02

/-- The Bloom-penalty block of `evaluate_answer` (lines 94-108):
`bloom_hierarchy.index(bloom_gt)` raises `ValueError` when the truthy
expected level is not one of the six; otherwise the signed-difference
penalty is computed. -/
def bloom_penalty_calc (bloom_gt : Option String) (classified : String) : Except PyError ℚ :=
  match bloom_gt with
  | none => .ok 0
  | some b =>
    if b.isEmpty then .ok 0
    else
      match List.findIdx? (fun x => x == b) bloom_hierarchy with
      | none => .error .valueError
      | some expected_idx =>
        .ok (penalty_formula expected_idx (listIndex bloom_hierarchy classified))

/-- Line 91 of the source: `keyword_coverage_score(stu_answer, keywords) if
keywords else 0.5` — `None` and the empty list are falsy. -/
def kw_coverage_of (stu_answer : String) : Option (List String) → ℚ
  | some ks => if ks.isEmpty then 0.5 else keyword_coverage_score stu_answer ks
  | none => 0.5

/-- Lines 86-89 of the source: the ROUGE call is the one provider call inside
a `try/except`, its failure degrades to `0.0`. -/
def rouge_value : Except Unit ℚ → ℚ
  | .ok v => v
  | .error _ => 0

/-- `answer_evaluator.evaluate_answer`.  `sem_r`, `bleu_r`, `rouge_r` are the
outcomes of the external provider calls (cosine similarity, `sentence_bleu`,
`rouge.get_scores`); only the ROUGE call is inside a `try/except` in the
source, so only its failure degrades to `0.0` while a semantic or BLEU
failure propagates.  The source calls `classify_bloom(gt_question or "",
stu_answer)`; `gt_question or ""` is the identity on strings. -/
def evaluate_answer (gt_question gt_answer stu_answer : String)
    (bloom_gt : Option String) (keywords : Option (List String)) (image_score : Option ℚ)
    (sem_r bleu_r rouge_r : Except Unit ℚ) : Except PyError EvalResult :=
  if isBlank stu_answer then
    let final_score : ℚ :=
      match image_score with
      | some i => 0.1 * i
      | none => 0
    .ok { semantic_score := 0
          bleu := 0
          rouge_l := 0
          keyword_coverage := 0
          bloom_classified := "Remember"
          bloom_expected := orUnderstand bloom_gt
          bloom_penalty := 0
          image_similarity := image_score
          raw_score := final_score }
  else
    match sem_r with
    | .error _ => .error .providerError
    | .ok sem_score =>
      match bleu_r with
      | .error _ => .error .providerError
      | .ok bleu_score =>
        let rouge_score : ℚ := rouge_value rouge_r
        let kw_coverage : ℚ := kw_coverage_of stu_answer keywords
        let classified := classify_bloom gt_question stu_answer
        match bloom_penalty_calc bloom_gt classified with
        | .error e => .error e
        | .ok penalty =>
          let traditional_score := (bleu_score + rouge_score) / 2
          let base := 0.4 * sem_score + 0.2 * traditional_score + 0.3 * kw_coverage - 0.1 * penalty
          let with_image :=
            match image_score with
            | some i => base + 0.1 * i
            | none => base
          let final_score := min (max with_image 0) 1
          .ok { semantic_score := sem_score
                bleu := bleu_score
                rouge_l := rouge_score
                keyword_coverage := kw_coverage
                bloom_classified := classified
                bloom_expected := orUnderstand bloom_gt
                bloom_penalty := penalty
                image_similarity := image_score
                raw_score := final_score }

/-- The grading curve `pow(x, 0.8)` of the source, over the reals. -/
noncomputable def curve (x : ℚ) : ℝ := (x : ℝ) ^ (0.8 : ℝ)

/-- The `final_score` field of the returned record: in both branches of the
source it is `pow(final_score, 0.8)` of the stored raw score (for the blank
branch with no image, `0.0 = pow(0.0, 0.8)`). -/
noncomputable def finalScoreOf (r : EvalResult) : ℝ := curve r.raw_score

/-- The resolution rule in the words of the specification, for comparison
with the source's `classify_bloom`: the higher of the two levels on the
ordinal scale when both are defined, the defined one when only one is,
and `"Understand"` when neither is. -/
def specResolution : Option String → Option String → String
  | some ql, some al =>
    if listIndex bloom_hierarchy al ≤ listIndex bloom_hierarchy ql then ql else al
  | some ql, none => ql
  | none, some al => al
  | none, none => "Understand"

/-- The concrete candidate answer of the end-to-end ARM scenario. -/
def armText : String :=
  "ARM includes the processor core, memory controller, interrupt controller and uses AHB and APB buses to connect peripherals."

/-- The keyword list of the end-to-end ARM scenario. -/
def armKeywords : List String :=
  ["processor core", "interrupt controller", "memory controller", "peripheral", "AHB", "APB", "buses"]

/-- Insertion of `t` into `s` at character position `i`. -/
def insertAt (s : String) (i : Nat) (t : String) : String :=
  String.mk (s.toList.take i ++ t.toList ++ s.toList.drop i)

theorem question_level_mem (q : List Char) (l : String)
    (h : question_level q = some l) : l ∈ bloom_hierarchy := by
  unfold question_level at h
  repeat' split at h
  all_goals simp_all [bloom_hierarchy]

theorem answer_level_mem (a : List Char) : answer_level a ∈ bloom_hierarchy := by
  unfold answer_level
  repeat' split
  all_goals simp [bloom_hierarchy]

/-- C5: for every question and answer string pair, `classify_bloom` returns
one of the six enumerated levels, and the returned level is the resolution —
in the specification's sense — of the question-ladder level (first matching
cue set in the fixed order, undefined when none matches) and the always
defined answer-ladder level. -/
theorem classify_bloom_total_and_resolves (question answer : String) :
    classify_bloom question answer ∈ bloom_hierarchy ∧
    classify_bloom question answer =
      specResolution (question_level (lowerChars question))
        (some (answer_level (lowerChars answer))) := by
  have hres : classify_bloom question answer =
      match question_level (lowerChars question) with
      | some ql =>
        bloom_hierarchy.getD
          (max (listIndex bloom_hierarchy ql)
            (listIndex bloom_hierarchy (answer_level (lowerChars answer)))) "Understand"
      | none => answer_level (lowerChars answer) := rfl
  rw [hres]
  cases hq : question_level (lowerChars question) with
  | none =>
    exact ⟨answer_level_mem _, rfl⟩
  | some ql =>
    have hm1 : ql ∈ bloom_hierarchy := question_level_mem _ _ hq
    have hm2 : answer_level (lowerChars answer) ∈ bloom_hierarchy := answer_level_mem _
    generalize answer_level (lowerChars answer) = al at hm2 ⊢
    simp only [bloom_hierarchy] at hm1 hm2
    fin_cases hm1 <;> fin_cases hm2 <;> exact ⟨by decide, by decide⟩

/-- C2: the power-0.8 grading curve fixes 0 and 1 and strictly boosts every
raw score strictly between 0 and 1. -/
theorem curve_boundary_fixed_and_midrange_boost :
    curve 0 = 0 ∧ curve 1 = 1 ∧ ∀ x : ℚ, 0 < x → x < 1 → (x : ℝ) < curve x := by
  refine ⟨?_, ?_, ?_⟩
  · simp only [curve, Rat.cast_zero]
    exact Real.zero_rpow (by norm_num)
  · simp only [curve, Rat.cast_one]
    exact Real.one_rpow _
  · intro x hx hx1
    have h0 : (0 : ℝ) < (x : ℝ) := by exact_mod_cast hx
    have h1 : (x : ℝ) < 1 := by exact_mod_cast hx1
    have h2 : ((x : ℝ)) ^ (1 : ℝ) < (x : ℝ) ^ (0.8 : ℝ) :=
      Real.rpow_lt_rpow_of_exponent_gt h0 h1 (by norm_num)
    rw [Real.rpow_one] at h2
    exact h2

/-- C2 witness: the curve strictly boosts the raw score 1/2. -/
theorem curve_midrange_boost_witness : ((1 / 2 : ℚ) : ℝ) < curve (1 / 2) :=
  curve_boundary_fixed_and_midrange_boost.2.2 (1 / 2) (by norm_num) (by norm_num)

/-- C9 counterexample: in the ARM scenario all seven keywords occur
case-insensitively as substrings of the candidate answer — `"peripheral"`
included, as a substring of `"peripherals"` — so the coverage computes to
exactly 1, not to a value near 6/7. -/
theorem arm_keyword_coverage_not_near_six_sevenths :
    keyword_coverage_score armText armKeywords = 1 ∧
    ¬ |keyword_coverage_score armText armKeywords - 6 / 7| < 1 / 10 := by
  have h : List.countP
      (fun keyword => hasSubstr (lowerChars keyword) (lowerChars armText)) armKeywords = 7 := by
    decide
  have hlen : armKeywords.length = 7 := by decide
  have hc : keyword_coverage_score armText armKeywords = 1 := by
    unfold keyword_coverage_score
    rw [if_neg (by decide), h, hlen]
    norm_num
  refine ⟨hc, ?_⟩
  have habs : |(1 : ℚ) - 6 / 7| = 1 / 7 := by
    rw [abs_of_pos] <;> norm_num
  rw [hc, habs]
  norm_num

/-- C9 amended: the ARM scenario's keyword coverage computes to exactly
7/7 = 1, with `"peripheral"` counting as a match because it is a
case-insensitive substring of `"peripherals"`. -/
theorem arm_keyword_coverage_full :
    keyword_coverage_score armText armKeywords = 1 ∧
    hasSubstr (lowerChars "peripheral") (lowerChars armText) = true := by
  constructor
  · have h : List.countP
        (fun keyword => hasSubstr (lowerChars keyword) (lowerChars armText)) armKeywords = 7 := by
      decide
    unfold keyword_coverage_score
    rw [if_neg (by decide), h, (by decide : armKeywords.length = 7)]
    norm_num
  · decide

theorem hasSubstr_nil_needle (l : List Char) : hasSubstr [] l = true := by
  cases l <;> simp [hasSubstr, List.isPrefixOf]

theorem hasSubstr_append_left (n h k : List Char) (hh : hasSubstr n h = true) :
    hasSubstr n (h ++ k) = true := by
  induction h with
  | nil =>
    have : n = [] := by
      simpa [hasSubstr, List.isEmpty_iff] using hh
    subst this
    exact hasSubstr_nil_needle _
  | cons c t ih =>
    rw [List.cons_append]
    rw [hasSubstr] at hh ⊢
    rcases Bool.or_eq_true_iff.mp hh with hpre | htail
    · refine Bool.or_eq_true_iff.mpr (Or.inl ?_)
      have hp : n <+: c :: t := List.isPrefixOf_iff_prefix.mp hpre
      exact List.isPrefixOf_iff_prefix.mpr (hp.trans (List.prefix_append _ _))
    · exact Bool.or_eq_true_iff.mpr (Or.inr (ih htail))

theorem hasSubstr_append_self (k h : List Char) : hasSubstr k (h ++ k) = true := by
  induction h with
  | nil =>
    cases k with
    | nil => rfl
    | cons c t =>
      rw [List.nil_append, hasSubstr]
      exact Bool.or_eq_true_iff.mpr (Or.inl (List.isPrefixOf_iff_prefix.mpr List.prefix_rfl))
  | cons c t ih =>
    rw [List.cons_append, hasSubstr]
    exact Bool.or_eq_true_iff.mpr (Or.inr ih)

theorem lowerChars_append (s t : String) :
    lowerChars (s ++ t) = lowerChars s ++ lowerChars t := by
  simp [lowerChars, String.toList, String.data_append]

/-- C8 counterexample: injecting the keyword `"q"` verbatim into the text
`"xaby"` at position 2 yields `"xaqby"`, which breaks both the `"ab"` and the
`"xab"` matches while only adding the `"q"` match: the coverage strictly
decreases from 2/3 to 1/3. -/
theorem keyword_injection_can_decrease_coverage :
    insertAt "xaby" 2 "q" = "xaqby" ∧
    ("q" : String) ∈ (["ab", "xab", "q"] : List String) ∧
    keyword_coverage_score (insertAt "xaby" 2 "q") ["ab", "xab", "q"] <
      keyword_coverage_score "xaby" ["ab", "xab", "q"] := by
  have he : insertAt "xaby" 2 "q" = "xaqby" := by decide
  refine ⟨he, by decide, ?_⟩
  rw [he]
  have h1 : List.countP
      (fun keyword => hasSubstr (lowerChars keyword) (lowerChars "xaqby"))
      (["ab", "xab", "q"] : List String) = 1 := by decide
  have h2 : List.countP
      (fun keyword => hasSubstr (lowerChars keyword) (lowerChars "xaby"))
      (["ab", "xab", "q"] : List String) = 2 := by decide
  unfold keyword_coverage_score
  rw [if_neg (by decide), if_neg (by decide), h1, h2]
  norm_num

/-- C8 amended: keyword coverage is monotonically non-decreasing when a
keyword from the list is appended verbatim to the text (appending keeps every
previous substring match and adds the appended keyword's own match; an
insertion strictly inside the text can instead break overlapping matches,
see the counterexample). -/
theorem keyword_coverage_append_mono (text k : String) (kws : List String)
    (hk : k ∈ kws) :
    keyword_coverage_score text kws ≤ keyword_coverage_score (text ++ k) kws := by
  have hne : kws ≠ [] := List.ne_nil_of_mem hk
  unfold keyword_coverage_score
  rw [if_neg (by simp [List.isEmpty_iff, hne]), if_neg (by simp [List.isEmpty_iff, hne])]
  apply div_le_div_of_nonneg_right ?_ (by positivity)
  have hmono : List.countP
      (fun keyword => hasSubstr (lowerChars keyword) (lowerChars text)) kws ≤
      List.countP
      (fun keyword => hasSubstr (lowerChars keyword) (lowerChars (text ++ k))) kws := by
    apply List.countP_mono_left
    intro kw _ hmatch
    rw [lowerChars_append]
    exact hasSubstr_append_left _ _ _ hmatch
  exact_mod_cast hmono

/-- C8 witness: appending the sole keyword `"y"` to the text `"x"` raises the
coverage from 0 to 1, in particular does not decrease it. -/
theorem keyword_coverage_append_mono_witness :
    keyword_coverage_score "x" ["y"] ≤ keyword_coverage_score ("x" ++ "y") ["y"] :=
  keyword_coverage_append_mono "x" "y" ["y"] (by decide)

theorem isEmpty_false_of_mem_bloom (b : String) (hb : b ∈ bloom_hierarchy) :
    b.isEmpty = false := by
  simp only [bloom_hierarchy] at hb
  fin_cases hb <;> decide

theorem findIdx_some_of_mem_bloom (b : String) (hb : b ∈ bloom_hierarchy) :
    List.findIdx? (fun x => x == b) bloom_hierarchy = some (listIndex bloom_hierarchy b) := by
  simp only [bloom_hierarchy] at hb
  fin_cases hb <;> decide

theorem findIdx_none_of_not_mem_bloom (b : String) (hb : b ∉ bloom_hierarchy) :
    List.findIdx? (fun x => x == b) bloom_hierarchy = none := by
  simp only [bloom_hierarchy, List.mem_cons, List.not_mem_nil, or_false, not_or] at hb
  obtain ⟨h1, h2, h3, h4, h5, h6⟩ := hb
  simp [bloom_hierarchy, List.findIdx?_cons, List.findIdx?_nil, beq_iff_eq,
    Ne.symm h1, Ne.symm h2, Ne.symm h3, Ne.symm h4, Ne.symm h5, Ne.symm h6]

theorem bloom_penalty_calc_of_mem (b classified : String) (hb : b ∈ bloom_hierarchy) :
    bloom_penalty_calc (some b) classified =
      .ok (penalty_formula (listIndex bloom_hierarchy b)
        (listIndex bloom_hierarchy classified)) := by
  have h1 : bloom_penalty_calc (some b) classified =
      (if b.isEmpty then Except.ok 0
       else
         match List.findIdx? (fun x => x == b) bloom_hierarchy with
         | none => Except.error PyError.valueError
         | some expected_idx =>
           Except.ok (penalty_formula expected_idx (listIndex bloom_hierarchy classified))) := rfl
  rw [h1]
  simp [isEmpty_false_of_mem_bloom b hb, findIdx_some_of_mem_bloom b hb]

theorem bloom_penalty_calc_ok_of_valid (bloom_gt : Option String) (classified : String)
    (hv : bloom_gt = none ∨ ∃ b, bloom_gt = some b ∧ (b = "" ∨ b ∈ bloom_hierarchy)) :
    ∃ p, bloom_penalty_calc bloom_gt classified = .ok p := by
  rcases hv with rfl | ⟨b, rfl, rfl | hb⟩
  · exact ⟨0, rfl⟩
  · exact ⟨0, rfl⟩
  · exact ⟨_, bloom_penalty_calc_of_mem b classified hb⟩

/-- The success shape of `evaluate_answer` on a non-blank answer: when the
semantic and BLEU providers return values and the Bloom-penalty block
succeeds, the call returns the record assembled from the component scores,
whatever the ROUGE provider did. -/
theorem evaluate_answer_ok_shape (gt_question gt_answer stu_answer : String)
    (bloom_gt : Option String) (keywords : Option (List String)) (image_score : Option ℚ)
    (sem bleu : ℚ) (rouge_r : Except Unit ℚ) (p : ℚ)
    (hns : isBlank stu_answer = false)
    (hp : bloom_penalty_calc bloom_gt (classify_bloom gt_question stu_answer) = .ok p) :
    evaluate_answer gt_question gt_answer stu_answer bloom_gt keywords image_score
      (.ok sem) (.ok bleu) rouge_r =
    .ok { semantic_score := sem
          bleu := bleu
          rouge_l := rouge_value rouge_r
          keyword_coverage := kw_coverage_of stu_answer keywords
          bloom_classified := classify_bloom gt_question stu_answer
          bloom_expected := orUnderstand bloom_gt
          bloom_penalty := p
          image_similarity := image_score
          raw_score := min (max (0.4 * sem + 0.2 * ((bleu + rouge_value rouge_r) / 2)
            + 0.3 * kw_coverage_of stu_answer keywords - 0.1 * p
            + (match image_score with | some i => 0.1 * i | none => 0)) 0) 1 } := by
  unfold evaluate_answer
  rw [hns]
  cases image_score with
  | none => simp [hp]
  | some i => simp [hp]

/-- C1: for a non-blank candidate answer, a valid or absent expected level
and given component scores, the raw score is the weighted sum
`0.4*sem + 0.2*((bleu+rouge)/2) + 0.3*coverage - 0.1*penalty`, plus
`0.1*imageSimilarity` when an image similarity is present, clamped to
`[0, 1]`; and the final score is the raw score raised to the real power
0.8. -/
theorem evaluate_answer_raw_and_final_formula
    (gt_question gt_answer stu_answer : String) (bloom_gt : Option String)
    (keywords : Option (List String)) (image_score : Option ℚ) (sem bleu rg : ℚ)
    (hns : isBlank stu_answer = false)
    (hbg : bloom_gt = none ∨ ∃ b, bloom_gt = some b ∧ (b = "" ∨ b ∈ bloom_hierarchy)) :
    ∃ r : EvalResult,
      evaluate_answer gt_question gt_answer stu_answer bloom_gt keywords image_score
        (.ok sem) (.ok bleu) (.ok rg) = .ok r ∧
      r.semantic_score = sem ∧ r.bleu = bleu ∧ r.rouge_l = rg ∧
      r.raw_score = min (max (0.4 * sem + 0.2 * ((bleu + rg) / 2)
        + 0.3 * r.keyword_coverage - 0.1 * r.bloom_penalty
        + (match image_score with | some i => 0.1 * i | none => 0)) 0) 1 ∧
      finalScoreOf r = (r.raw_score : ℝ) ^ (0.8 : ℝ) := by
  obtain ⟨p, hp⟩ := bloom_penalty_calc_ok_of_valid bloom_gt
    (classify_bloom gt_question stu_answer) hbg
  exact ⟨_, evaluate_answer_ok_shape gt_question gt_answer stu_answer bloom_gt keywords
    image_score sem bleu (.ok rg) p hns hp, rfl, rfl, rfl, rfl, rfl⟩

/-- C1 witness: a concrete non-blank evaluation with absent expected level. -/
theorem evaluate_answer_raw_and_final_formula_witness :
    ∃ r : Evaluator.EvalResult,
      evaluate_answer "q" "a" "hi" none none none
        (.ok (1 / 2)) (.ok 0) (.ok 0) = .ok r ∧
      r.semantic_score = 1 / 2 ∧ r.bleu = 0 ∧ r.rouge_l = 0 ∧
      r.raw_score = min (max (0.4 * (1 / 2) + 0.2 * (((0 : ℚ) + 0) / 2)
        + 0.3 * r.keyword_coverage - 0.1 * r.bloom_penalty
        + (match (none : Option ℚ) with | some i => 0.1 * i | none => 0)) 0) 1 ∧
      finalScoreOf r = (r.raw_score : ℝ) ^ (0.8 : ℝ) :=
  evaluate_answer_raw_and_final_formula "q" "a" "hi" none none none (1 / 2) 0 0
    (by decide) (Or.inl rfl)

/-- C3: with a non-blank candidate answer and a supplied expected level among
the six, the returned penalty is the piecewise function of
`diff = ordinal(expected) - ordinal(classified)`: zero at `diff = 0`,
`min(0.05*diff, 0.15)` for `diff > 0`, the flat constant `-0.02` for
`diff < 0`. -/
theorem evaluate_answer_penalty_piecewise
    (gt_question gt_answer stu_answer : String) (b : String)
    (keywords : Option (List String)) (image_score : Option ℚ) (sem bleu rg : ℚ)
    (hns : isBlank stu_answer = false) (hb : b ∈ bloom_hierarchy) :
    ∃ r : EvalResult,
      evaluate_answer gt_question gt_answer stu_answer (some b) keywords image_score
        (.ok sem) (.ok bleu) (.ok rg) = .ok r ∧
      r.bloom_penalty =
        penalty_formula (listIndex bloom_hierarchy b)
          (listIndex bloom_hierarchy (classify_bloom gt_question stu_answer)) ∧
      (∀ e a : Nat, penalty_formula e a =
        if (e : ℤ) - (a : ℤ) = 0 then 0
        else if 0 < (e : ℤ) - (a : ℤ) then min (0.05 * (((e : ℤ) - (a : ℤ)) : ℚ)) 0.15
        else -0.02) := by
  refine ⟨_, evaluate_answer_ok_shape gt_question gt_answer stu_answer (some b) keywords
    image_score sem bleu (.ok rg) _ hns (bloom_penalty_calc_of_mem b _ hb),
    rfl, ?_⟩
  intro e a
  simp [penalty_formula, Int.cast_sub, Int.cast_natCast]

/-- C3 witness: expected level Remember against an answer classified
Understand (`diff = -1`). -/
theorem evaluate_answer_penalty_piecewise_witness :
    ∃ r : Evaluator.EvalResult,
      evaluate_answer "q" "a" "hi" (some "Remember") none none
        (.ok 0) (.ok 0) (.ok 0) = .ok r ∧
      r.bloom_penalty =
        penalty_formula (listIndex bloom_hierarchy "Remember")
          (listIndex bloom_hierarchy (classify_bloom "q" "hi")) ∧
      (∀ e a : Nat, penalty_formula e a =
        if (e : ℤ) - (a : ℤ) = 0 then 0
        else if 0 < (e : ℤ) - (a : ℤ) then min (0.05 * (((e : ℤ) - (a : ℤ)) : ℚ)) 0.15
        else -0.02) :=
  evaluate_answer_penalty_piecewise "q" "a" "hi" "Remember" none none 0 0 0
    (by decide) (by decide)

/-- C4: on an empty or whitespace-only candidate answer the returned record
has zero semantic, BLEU, ROUGE and keyword-coverage scores, classified level
Remember, raw score `0.1 * imageSimilarity` when an image similarity is
present and `0` otherwise, and final score `(0.1 * imageSimilarity)^0.8`,
exactly `0` when no image similarity is supplied. -/
theorem evaluate_answer_blank_answer
    (gt_question gt_answer stu_answer : String) (bloom_gt : Option String)
    (keywords : Option (List String)) (image_score : Option ℚ)
    (sem_r bleu_r rouge_r : Except Unit ℚ)
    (h : isBlank stu_answer = true) :
    ∃ r : EvalResult,
      evaluate_answer gt_question gt_answer stu_answer bloom_gt keywords image_score
        sem_r bleu_r rouge_r = .ok r ∧
      r.semantic_score = 0 ∧ r.bleu = 0 ∧ r.rouge_l = 0 ∧ r.keyword_coverage = 0 ∧
      r.bloom_classified = "Remember" ∧
      r.raw_score = (match image_score with | some i => 0.1 * i | none => 0) ∧
      (image_score = none → finalScoreOf r = 0) ∧
      (∀ i, image_score = some i → finalScoreOf r = ((0.1 * i : ℚ) : ℝ) ^ (0.8 : ℝ)) := by
  have he : evaluate_answer gt_question gt_answer stu_answer bloom_gt keywords image_score
      sem_r bleu_r rouge_r =
      .ok { semantic_score := 0
            bleu := 0
            rouge_l := 0
            keyword_coverage := 0
            bloom_classified := "Remember"
            bloom_expected := orUnderstand bloom_gt
            bloom_penalty := 0
            image_similarity := image_score
            raw_score := match image_score with | some i => 0.1 * i | none => 0 } := by
    unfold evaluate_answer
    rw [if_pos h]
  refine ⟨_, he, rfl, rfl, rfl, rfl, rfl, rfl, ?_, ?_⟩
  · rintro rfl
    simp only [finalScoreOf, curve]
    norm_num
  · rintro i rfl
    rfl

/-- C4 witness: a whitespace-only answer with no image similarity. -/
theorem evaluate_answer_blank_answer_witness :
    ∃ r : Evaluator.EvalResult,
      evaluate_answer "q" "a" " " none none none (.ok 0) (.ok 0) (.ok 0) = .ok r ∧
      r.semantic_score = 0 ∧ r.bleu = 0 ∧ r.rouge_l = 0 ∧ r.keyword_coverage = 0 ∧
      r.bloom_classified = "Remember" ∧
      r.raw_score = (match (none : Option ℚ) with | some i => 0.1 * i | none => 0) ∧
      ((none : Option ℚ) = none → finalScoreOf r = 0) ∧
      (∀ i, (none : Option ℚ) = some i → finalScoreOf r = ((0.1 * i : ℚ) : ℝ) ^ (0.8 : ℝ)) :=
  evaluate_answer_blank_answer "q" "a" " " none none none (.ok 0) (.ok 0) (.ok 0) (by decide)

/-- C6 counterexample: a failure of the semantic-embedding provider aborts
the evaluation of the item with an error instead of degrading that provider's
contribution to 0 and returning a result — only the ROUGE call is guarded in
the source. -/
theorem evaluate_answer_semantic_failure_aborts :
    evaluate_answer "q" "a" "hello" none none none
      (.error ()) (.ok 0) (.ok 0) = .error .providerError := by
  rfl

/-- C6 amended: a failure of the ROUGE provider degrades its contribution to
0 and the evaluation still returns a result record; failures of the semantic
or BLEU providers instead propagate as errors (see the counterexample). -/
theorem evaluate_answer_rouge_failure_degrades
    (gt_question gt_answer stu_answer : String) (bloom_gt : Option String)
    (keywords : Option (List String)) (image_score : Option ℚ) (sem bleu : ℚ)
    (hns : isBlank stu_answer = false)
    (hbg : bloom_gt = none ∨ ∃ b, bloom_gt = some b ∧ (b = "" ∨ b ∈ bloom_hierarchy)) :
    ∃ r : EvalResult,
      evaluate_answer gt_question gt_answer stu_answer bloom_gt keywords image_score
        (.ok sem) (.ok bleu) (.error ()) = .ok r ∧
      r.rouge_l = 0 := by
  obtain ⟨p, hp⟩ := bloom_penalty_calc_ok_of_valid bloom_gt
    (classify_bloom gt_question stu_answer) hbg
  exact ⟨_, evaluate_answer_ok_shape gt_question gt_answer stu_answer bloom_gt keywords
    image_score sem bleu (.error ()) p hns hp, rfl⟩

/-- C6 witness: a concrete evaluation in which the ROUGE provider fails. -/
theorem evaluate_answer_rouge_failure_degrades_witness :
    ∃ r : Evaluator.EvalResult,
      evaluate_answer "q" "a" "hi" none none none
        (.ok (1 / 2)) (.ok (1 / 4)) (.error ()) = .ok r ∧
      r.rouge_l = 0 :=
  evaluate_answer_rouge_failure_degrades "q" "a" "hi" none none none (1 / 2) (1 / 4)
    (by decide) (Or.inl rfl)

/-- C7 counterexample: with a whitespace-only candidate answer the blank
early-return path runs before expected-level validation, so an expected level
outside the six-level enumeration is echoed into the result instead of
raising an error. -/
theorem evaluate_answer_invalid_level_blank_returns :
    ∃ r : EvalResult,
      evaluate_answer "q" "a" " " (some "Banana") none none
        (.ok 0) (.ok 0) (.ok 0) = .ok r ∧
      r.bloom_expected = "Banana" :=
  ⟨_, rfl, rfl⟩

/-- C7 amended: with a non-blank candidate answer, successful semantic and
BLEU providers and a non-empty expected-level string outside the six-level
enumeration, `evaluate_answer` fails with the `ValueError` raised by
`bloom_hierarchy.index` instead of returning a result. -/
theorem evaluate_answer_invalid_level_value_error
    (gt_question gt_answer stu_answer : String) (b : String)
    (keywords : Option (List String)) (image_score : Option ℚ) (sem bleu : ℚ)
    (rouge_r : Except Unit ℚ)
    (hns : isBlank stu_answer = false) (hb : b ≠ "") (hmem : b ∉ bloom_hierarchy) :
    evaluate_answer gt_question gt_answer stu_answer (some b) keywords image_score
      (.ok sem) (.ok bleu) rouge_r = .error .valueError := by
  have hbe : b.isEmpty = false := by
    cases hise : b.isEmpty
    · rfl
    · exact absurd ((String.isEmpty_iff b).mp hise) hb
  have hcalc : bloom_penalty_calc (some b) (classify_bloom gt_question stu_answer) =
      .error .valueError := by
    have h1 : bloom_penalty_calc (some b) (classify_bloom gt_question stu_answer) =
        (if b.isEmpty then Except.ok 0
         else
           match List.findIdx? (fun x => x == b) bloom_hierarchy with
           | none => Except.error PyError.valueError
           | some expected_idx =>
             Except.ok (penalty_formula expected_idx
               (listIndex bloom_hierarchy (classify_bloom gt_question stu_answer)))) := rfl
    rw [h1]
    simp [hbe, findIdx_none_of_not_mem_bloom b hmem]
  unfold evaluate_answer
  rw [hns]
  simp [hcalc]

/-- C7 witness: the unknown expected level `"Banana"` with a non-blank answer
raises `ValueError`. -/
theorem evaluate_answer_invalid_level_value_error_witness :
    evaluate_answer "q" "a" "hi" (some "Banana") none none
      (.ok 0) (.ok 0) (.ok 0) = .error .valueError :=
  evaluate_answer_invalid_level_value_error "q" "a" "hi" "Banana" none none 0 0 (.ok 0)
    (by decide) (by decide) (by decide)

/-- C10: through `evaluate_answer` with a non-blank answer, an absent or
empty keyword list yields keyword coverage exactly 0.5, and a non-empty
keyword list always reaches the matches-over-length branch of
`keyword_coverage_score` (so the internal `1.0` empty-list branch is
unreachable from `evaluate_answer` and the division's denominator is the
positive list length). -/
theorem evaluate_answer_keyword_default
    (gt_question gt_answer stu_answer : String) (bloom_gt : Option String)
    (keywords : Option (List String)) (image_score : Option ℚ) (sem bleu rg : ℚ)
    (hns : isBlank stu_answer = false)
    (hbg : bloom_gt = none ∨ ∃ b, bloom_gt = some b ∧ (b = "" ∨ b ∈ bloom_hierarchy)) :
    ∃ r : EvalResult,
      evaluate_answer gt_question gt_answer stu_answer bloom_gt keywords image_score
        (.ok sem) (.ok bleu) (.ok rg) = .ok r ∧
      ((keywords = none ∨ keywords = some []) → r.keyword_coverage = 0.5) ∧
      (∀ k ks, keywords = some (k :: ks) →
        r.keyword_coverage =
          (List.countP
            (fun keyword => hasSubstr (lowerChars keyword) (lowerChars stu_answer))
            (k :: ks) : ℚ) / ((k :: ks).length : ℚ)) := by
  obtain ⟨p, hp⟩ := bloom_penalty_calc_ok_of_valid bloom_gt
    (classify_bloom gt_question stu_answer) hbg
  refine ⟨_, evaluate_answer_ok_shape gt_question gt_answer stu_answer bloom_gt keywords
    image_score sem bleu (.ok rg) p hns hp, ?_, ?_⟩
  · rintro (rfl | rfl) <;> rfl
  · rintro k ks rfl
    rfl

/-- C10 witness: an absent keyword list yields coverage 0.5. -/
theorem evaluate_answer_keyword_default_witness :
    ∃ r : Evaluator.EvalResult,
      evaluate_answer "q" "a" "hi" none none none
        (.ok 0) (.ok 0) (.ok 0) = .ok r ∧
      (((none : Option (List String)) = none ∨ (none : Option (List String)) = some []) →
        r.keyword_coverage = 0.5) ∧
      (∀ k ks, (none : Option (List String)) = some (k :: ks) →
        r.keyword_coverage =
          (List.countP
            (fun keyword => hasSubstr (lowerChars keyword) (lowerChars "hi"))
            (k :: ks) : ℚ) / ((k :: ks).length : ℚ)) :=
  evaluate_answer_keyword_default "q" "a" "hi" none none none 0 0 0
    (by decide) (Or.inl rfl)

end Evaluator
